import Mathlib

set_option maxHeartbeats 1000000

/-!
Shallow embedding of the offline-first task sync service
(`src/types/index.ts` concatenation: application types, `db/database.ts`
schema, `services/syncService.ts`, and `services/taskService.ts`).

Modelling conventions:
* Timestamps are ISO-8601 strings in the source; strings of that fixed format
  compare lexicographically in the same order as chronologically, so they are
  modelled as `Nat` and the source's `<` / `>=` string comparisons become the
  corresponding `Nat` comparisons.  A well-formed ISO timestamp string is never
  empty, so JS truthiness tests on a timestamp (`!existing.updated_at`,
  `x || nowISO()`) are modelled as presence tests on `Option Nat`.
* `undefined`/`null` become `none`; JSON payload fields are `Option`-valued.
  Where the source collapses `undefined` and `null` with `??` the model uses a
  single `Option` layer, and keeps two layers (`Option (Option _)`) where the
  source distinguishes them (`updates.description !== undefined`).
* Database tables become lists of typed rows; `uuidv4()` fresh identifiers are
  supplied explicitly by the caller (client ops) or drawn from a counter
  (server ids), since only distinctness ever matters.
* `async/await` sequencing over sqlite becomes plain sequential state passing;
  the per-item `try/catch` in `processBatch` only guards sqlite exceptions,
  which this pure model cannot raise, so the `status: 'error'` arm is dead
  here (noted where relevant).
-/

namespace TaskSync

/-- JS nullish coalescing `a ?? b` on optional values. -/
def coal {α : Type} (a b : Option α) : Option α :=
  match a with
  | some x => some x
  | none => b

/-- JS `a || b` where `a` is an optional string and the empty string is falsy
(used for `it.operation || 'update'` and `(p.operation as string) || 'update'`). -/
def strOr (a : Option String) (b : String) : String :=
  match a with
  | some s => if s = "" then b else s
  | none => b

/-- JSON payload shape used both for `sync_queue.data` (after `JSON.parse`)
and for a batch item's `data` field: a partial view of a task's fields
(`Partial<Task>` in the source), absent fields being `none`. -/
structure TaskData where
  id : Option String := none
  title : Option String := none
  description : Option String := none
  completed : Option Bool := none
  created_at : Option Nat := none
  updated_at : Option Nat := none
deriving Repr, DecidableEq

/-- Row of the client `tasks` table (schema in `db/database.ts`).  Columns
with defaults or set by every INSERT of the services are total here;
`server_id` and `last_synced_at` are nullable. -/
structure TaskRow where
  id : String
  title : String
  description : Option String
  completed : Bool
  created_at : Nat
  updated_at : Nat
  is_deleted : Bool
  sync_status : String
  server_id : Option String
  last_synced_at : Option Nat
deriving Repr, DecidableEq

/-- Row of the `sync_queue` table.  `data` is stored as JSON text; the model
keeps it in parsed form (the client parses it back before shipping). -/
structure QueueRow where
  id : String
  task_id : String
  operation : String
  data : TaskData
  created_at : Nat
  retry_count : Nat
  error_message : Option String
deriving Repr, DecidableEq

/-- Client-side database state: the `tasks` and `sync_queue` tables. -/
structure ClientState where
  tasks : List TaskRow
  sync_queue : List QueueRow
deriving Repr, DecidableEq

/-- Row of the `server_tasks` table (the Remote Authority's storage).
`client_id` is declared UNIQUE but nullable in the schema. -/
structure ServerTaskRow where
  id : String
  client_id : Option String
  title : String
  description : Option String
  completed : Bool
  is_deleted : Bool
  created_at : Nat
  updated_at : Nat
deriving Repr, DecidableEq

/-- Incoming batch item as read by `SyncService.processBatch`
(`IncomingItem` in `src/types/index.ts`). -/
structure IncomingItem where
  task_id : Option String := none
  client_id : Option String := none
  data : Option TaskData := none
  title : Option String := none
  operation : Option String := none
deriving Repr, DecidableEq

/-- Normalised incoming payload built at the top of the `processBatch` loop
(every field defaulted, so total). -/
structure Incoming where
  title : String
  description : Option String
  completed : Bool
  created_at : Nat
  updated_at : Nat
deriving Repr, DecidableEq

/-- Per-item verdict produced by `processBatch` (`ProcessedItem` in
`src/types/index.ts`). -/
structure ProcessedItemS where
  client_id : Option String
  server_id : String
  status : String
  resolved_data : TaskData
  operation : String
  conflict : Bool
deriving Repr, DecidableEq

/-- Models `it.task_id ?? it.client_id ?? (it.data?.id) ?? null`. -/
def clientIdOf (it : IncomingItem) : Option String :=
  coal it.task_id (coal it.client_id (it.data.bind (fun d => d.id)))

/-- Models `it.operation || 'update'` (empty string is falsy in JS). -/
def opOf (it : IncomingItem) : String :=
  strOr it.operation "update"

/-- Normalisation of the incoming payload in `processBatch`:
`title: it.data?.title ?? it.title ?? 'untitled'`,
`description: it.data?.description ?? null`,
`completed: !!(it.data?.completed ?? false)`, and
timestamps defaulting to `nowISO()`. -/
def normalizeItem (now : Nat) (it : IncomingItem) : Incoming :=
  { title := (coal (it.data.bind (fun d => d.title)) it.title).getD "untitled"
    description := it.data.bind (fun d => d.description)
    completed := (it.data.bind (fun d => d.completed)).getD false
    created_at := (it.data.bind (fun d => d.created_at)).getD now
    updated_at := (it.data.bind (fun d => d.updated_at)).getD now }

/-- Models `SELECT * FROM server_tasks WHERE client_id = ?`: a NULL parameter
matches no row; otherwise the (unique, if the table is well formed) row with
that `client_id`. -/
def lookupClient (server : List ServerTaskRow) (cid : Option String) :
    Option ServerTaskRow :=
  match cid with
  | none => none
  | some c => server.find? (fun r => r.client_id == some c)

/-- Models `UPDATE server_tasks SET is_deleted = 1, updated_at = ? WHERE id = ?`. -/
def markDeleted (rid : String) (u : Nat) (server : List ServerTaskRow) :
    List ServerTaskRow :=
  server.map (fun r =>
    if r.id = rid then { r with is_deleted := true, updated_at := u } else r)

/-- Models the last-write-wins
`UPDATE server_tasks SET title, description, completed, is_deleted = 0,
updated_at WHERE id = ?` applying the normalised incoming payload. -/
def applyWrite (rid : String) (inc : Incoming) (server : List ServerTaskRow) :
    List ServerTaskRow :=
  server.map (fun r =>
    if r.id = rid then
      { r with title := inc.title, description := inc.description,
               completed := inc.completed, is_deleted := false,
               updated_at := inc.updated_at }
    else r)

/-- Fresh server identifier; the source draws `srv_` plus a uuid fragment,
the model draws from a counter. -/
def genServerId (n : Nat) : String := "srv_" ++ toString n

/-- Models the INSERT of a tombstone record in the delete-with-no-existing
branch (`is_deleted = 1`). -/
def tombstoneRow (sid : String) (cid : Option String) (inc : Incoming) :
    ServerTaskRow :=
  { id := sid, client_id := cid, title := inc.title,
    description := inc.description, completed := inc.completed,
    is_deleted := true, created_at := inc.created_at,
    updated_at := inc.updated_at }

/-- Models the INSERT of a fresh live record (`is_deleted = 0`) when no
record exists for the client id. -/
def liveRow (sid : String) (cid : Option String) (inc : Incoming) :
    ServerTaskRow :=
  { id := sid, client_id := cid, title := inc.title,
    description := inc.description, completed := inc.completed,
    is_deleted := false, created_at := inc.created_at,
    updated_at := inc.updated_at }

/-- Resolved record reported back when a server row exists after the
operation (server's current view). -/
def resolvedOfRow (sr : ServerTaskRow) : TaskData :=
  { id := some sr.id, title := some sr.title, description := sr.description,
    completed := some sr.completed, created_at := some sr.created_at,
    updated_at := some sr.updated_at }

/-- Resolved record reported back when no server row is visible after the
operation (echoes the normalised incoming payload). -/
def resolvedOfIncoming (sid : String) (inc : Incoming) : TaskData :=
  { id := some sid, title := some inc.title, description := inc.description,
    completed := some inc.completed, created_at := some inc.created_at,
    updated_at := some inc.updated_at }

/-- One iteration of the loop in `SyncService.processBatch`
(`src/types/index.ts`): resolves one incoming item against the
`server_tasks` table with last-write-wins.  Returns the verdict, the updated
table and the next fresh-id counter.  The source's per-item `catch` arm only
guards sqlite exceptions and is unreachable in this pure model. -/
def processItem (now : Nat) (server : List ServerTaskRow) (ctr : Nat)
    (it : IncomingItem) : ProcessedItemS × List ServerTaskRow × Nat :=
  let clientId := clientIdOf it
  let op := opOf it
  let incoming := normalizeItem now it
  let existing := lookupClient server clientId
  let u := incoming.updated_at
  let step : String × List ServerTaskRow × Nat :=
    if op = "delete" then
      match existing with
      | some ex => (ex.id, markDeleted ex.id u server, ctr)
      | none =>
          (genServerId ctr, server ++ [tombstoneRow (genServerId ctr) clientId incoming],
           ctr + 1)
    else
      match existing with
      | none =>
          (genServerId ctr, server ++ [liveRow (genServerId ctr) clientId incoming],
           ctr + 1)
      | some ex =>
          if ex.updated_at ≤ u then (ex.id, applyWrite ex.id incoming server, ctr)
          else (ex.id, server, ctr)
  let serverRow := lookupClient step.2.1 clientId
  let conflict : Bool :=
    match existing, serverRow with
    | some _, some sr => decide (u < sr.updated_at)
    | _, _ => false
  let resolved : TaskData :=
    match serverRow with
    | some sr => resolvedOfRow sr
    | none => resolvedOfIncoming step.1 incoming
  ({ client_id := clientId,
     server_id := (serverRow.map (fun r => r.id)).getD step.1,
     status := "success",
     resolved_data := resolved,
     operation := op,
     conflict := conflict },
   step.2.1, step.2.2)

/-- `SyncService.processBatch`: folds `processItem` over the incoming items,
threading the `server_tasks` table and the fresh-id counter, collecting the
verdicts in order. -/
def processBatch (now : Nat) (server : List ServerTaskRow) (ctr : Nat)
    (items : List IncomingItem) :
    List ProcessedItemS × List ServerTaskRow × Nat :=
  match items with
  | [] => ([], server, ctr)
  | it :: rest =>
      let r1 := processItem now server ctr it
      let r2 := processBatch now r1.2.1 r1.2.2 rest
      (r1.1 :: r2.1, r2.2.1, r2.2.2)

/-- Verdict item as consumed by the client in `SyncService.sync` (the shape
the code reads off `res.data.processed_items`; any field may be missing).
The `error` field exists on the wire (`ProcessedItem` in the API types) but
the applying code in `src/types/index.ts` never reads it. -/
structure VerdictItem where
  client_id : Option String := none
  task_id : Option String := none
  server_id : Option String := none
  status : String := ""
  resolved_data : Option TaskData := none
  operation : Option String := none
  conflict : Bool := false
  error : Option String := none
deriving Repr, DecidableEq

/-- Entry of the `errors` array in a sync result. -/
structure SyncErrorEntry where
  task_id : Option String
  operation : String
  error : String
  timestamp : Nat
deriving Repr, DecidableEq

/-- Result shape returned by `SyncService.sync`. -/
structure SyncResult where
  success : Bool
  synced_items : Nat
  failed_items : Nat
  errors : List SyncErrorEntry
deriving Repr, DecidableEq

/-- Item of the batch request POSTed to the server (`payloadItems` in
`sync`): the queue row with its `data` JSON parsed. -/
structure PayloadItem where
  id : String
  task_id : String
  operation : String
  data : TaskData
  created_at : Nat
  retry_count : Nat
deriving Repr, DecidableEq

/-- Builds one `payloadItems` element from a queue row. -/
def toPayload (q : QueueRow) : PayloadItem :=
  { id := q.id, task_id := q.task_id, operation := q.operation,
    data := q.data, created_at := q.created_at, retry_count := q.retry_count }

/-- Outcome of the batch POST, as the client experiences it: either a
response body (transport success) or a thrown error with a message
(whole-batch transport failure). -/
inductive NetResponse where
  | ok (processed : List VerdictItem)
  | fail (message : String)
deriving Repr, DecidableEq

/-- Full outcome of one `sync()` call: the returned result, the client
database state afterwards, and the batch request actually POSTed
(`none` means the batch endpoint was never contacted). -/
structure SyncOutcome where
  result : SyncResult
  state : ClientState
  request : Option (List PayloadItem)
deriving Repr, DecidableEq

/-- Stable insertion of a queue row into a list sorted by `created_at`. -/
def insertByCreated (q : QueueRow) : List QueueRow → List QueueRow
  | [] => [q]
  | r :: rs =>
      if q.created_at < r.created_at then q :: r :: rs
      else r :: insertByCreated q rs

/-- Insertion sort by `created_at` (models `ORDER BY created_at ASC`; the
order among equal keys is unspecified by SQL). -/
def sortByCreated : List QueueRow → List QueueRow
  | [] => []
  | q :: qs => insertByCreated q (sortByCreated qs)

/-- Models `SELECT * FROM sync_queue ORDER BY created_at ASC LIMIT ?`. -/
def fetchBatch (batchSize : Nat) (queue : List QueueRow) : List QueueRow :=
  (sortByCreated queue).take batchSize

/-- Applies one verdict in the transport-success branch of `sync`
(`src/types/index.ts`): on `success`, `UPDATE tasks SET sync_status =
'synced', server_id = ?, last_synced_at = ?, updated_at = ? WHERE id = ?`
followed by `DELETE FROM sync_queue WHERE task_id = ?`, counting the item as
synced and recording a conflict note when the verdict carries the conflict
flag; otherwise the failed-item counter is bumped and a fixed
`operation: 'unknown', error: 'failed'` entry is recorded. -/
def applyVerdict (now : Nat) (acc : ClientState × SyncResult)
    (p : VerdictItem) : ClientState × SyncResult :=
  let state := acc.1
  let result := acc.2
  let clientId := coal p.client_id p.task_id
  if p.status = "success" then
    let serverId := p.server_id
    let updated_at := (p.resolved_data.bind (fun d => d.updated_at)).getD now
    let tasks1 := state.tasks.map (fun t =>
      if some t.id = clientId then
        { t with sync_status := "synced", server_id := serverId,
                 last_synced_at := some updated_at, updated_at := updated_at }
      else t)
    let queue1 := state.sync_queue.filter (fun q => !(some q.task_id == clientId))
    let result1 := { result with synced_items := result.synced_items + 1 }
    let result2 :=
      if p.conflict then
        { result1 with errors := result1.errors ++
            [{ task_id := clientId, operation := strOr p.operation "update",
               error := "Conflict resolved using last-write-wins",
               timestamp := now }] }
      else result1
    ({ tasks := tasks1, sync_queue := queue1 }, result2)
  else
    (state,
     { result with
         failed_items := result.failed_items + 1,
         errors := result.errors ++
           [{ task_id := clientId, operation := "unknown", error := "failed",
              timestamp := now }] })

/-- Models `UPDATE sync_queue SET retry_count = retry_count + 1,
error_message = ? WHERE id = ?`. -/
def bumpRetry (msg : String) (eid : String) (queue : List QueueRow) :
    List QueueRow :=
  queue.map (fun q =>
    if q.id = eid then
      { q with retry_count := q.retry_count + 1, error_message := some msg }
    else q)

/-- Models `UPDATE tasks SET sync_status = 'error' WHERE id = ?`. -/
def markTaskError (tid : String) (tasks : List TaskRow) : List TaskRow :=
  tasks.map (fun t =>
    if t.id = tid then { t with sync_status := "error" } else t)

/-- One iteration of the retry loop in the catch branch of `sync`: bump the
queue entry's retry counter, record the transport failure message, and mark
the owning task `error` when `(item.retry_count ?? 0) + 1 >= maxRetries`
(the counter read from the fetched batch, i.e. the pre-increment value). -/
def applyRetry (maxRetries : Nat) (msg : String) (state : ClientState)
    (item : QueueRow) : ClientState :=
  { sync_queue := bumpRetry msg item.id state.sync_queue,
    tasks :=
      if maxRetries ≤ item.retry_count + 1 then
        markTaskError item.task_id state.tasks
      else state.tasks }

/-- `SyncService.sync` (`src/types/index.ts`): fetch up to `batchSize` queue
entries oldest-first; if none, return the zero result without contacting the
network; otherwise POST the batch and either apply the verdicts
(transport success) or increment retry counters and report one aggregated
error (transport failure).  The network is modelled by `resp`, the response
the batch endpoint would give if called; `request = none` in the outcome
means the endpoint was never contacted. -/
def sync (now batchSize maxRetries : Nat) (st : ClientState)
    (resp : NetResponse) : SyncOutcome :=
  let result0 : SyncResult :=
    { success := true, synced_items := 0, failed_items := 0, errors := [] }
  let items := fetchBatch batchSize st.sync_queue
  if items.isEmpty then
    { result := result0, state := st, request := none }
  else
    match resp with
    | .ok processed =>
        let out := processed.foldl (applyVerdict now) (st, result0)
        { result := out.2, state := out.1, request := some (items.map toPayload) }
    | .fail msg =>
        let st1 := items.foldl (applyRetry maxRetries msg) st
        { result :=
            { success := false, synced_items := 0,
              failed_items := items.length,
              errors := [{ task_id := none, operation := "batch", error := msg,
                           timestamp := now }] },
          state := st1,
          request := some (items.map toPayload) }

/-- Status shape returned by `SyncService.getStatus`. -/
structure SyncStatus where
  pending_sync_count : Nat
  last_sync_timestamp : Option Nat
  is_online : Bool
  sync_queue_size : Nat
deriving Repr, DecidableEq

/-- Models `SELECT MAX(last_synced_at) as t FROM tasks WHERE last_synced_at
IS NOT NULL`. -/
def lastSyncTimestamp (tasks : List TaskRow) : Option Nat :=
  tasks.foldl (fun acc t =>
    match acc, t.last_synced_at with
    | none, v => v
    | some a, none => some a
    | some a, some v => some (max a v)) none

/-- `SyncService.getStatus`: the pending count is `COUNT(*)` over the whole
queue, the last sync timestamp is the maximum `last_synced_at` over tasks,
and `is_online` is the literal `true` in the source.  The function consults
only the database state; connectivity (`checkConnectivity`, the `/health`
endpoint) is not an input. -/
def getStatus (st : ClientState) : SyncStatus :=
  { pending_sync_count := st.sync_queue.length,
    last_sync_timestamp := lastSyncTimestamp st.tasks,
    is_online := true,
    sync_queue_size := st.sync_queue.length }

/-- Models JS `String.prototype.trim` (the source's `.trim()` on titles):
strips leading and trailing whitespace.  Defined over the character list so
that concrete instances reduce in the kernel. -/
def jsTrim (s : String) : String :=
  ⟨((s.data.dropWhile Char.isWhitespace).reverse.dropWhile
      Char.isWhitespace).reverse⟩

/-- Input accepted by `TaskService.createTask`. -/
structure CreateInput where
  title : Option String := none
  description : Option String := none
  completed : Option Bool := none
deriving Repr, DecidableEq

/-- Input accepted by `TaskService.updateTask`.  The source distinguishes an
absent field from an explicit `null` for `description`
(`updates.description !== undefined`), hence the nested `Option`. -/
structure UpdateInput where
  title : Option String := none
  description : Option (Option String) := none
  completed : Option Bool := none
deriving Repr, DecidableEq

/-- `TaskService.createTask` (`src/services/syncService.ts` concatenation):
validates the trimmed title, inserts the task row with both timestamps `now`,
`sync_status = 'pending'`, and enqueues one `create` sync-queue entry whose
payload is `{id, title, description, completed, updated_at}`.  Fresh uuids
for the task and the queue entry are supplied by the caller. -/
def createTask (now : Nat) (newId queueId : String) (st : ClientState)
    (input : CreateInput) : Except String (ClientState × TaskRow) :=
  let title := jsTrim (input.title.getD "")
  if title = "" then .error "Title is required"
  else
    let description := input.description
    let completed := input.completed.getD false
    let task : TaskRow :=
      { id := newId, title := title, description := description,
        completed := completed, created_at := now, updated_at := now,
        is_deleted := false, sync_status := "pending",
        server_id := none, last_synced_at := none }
    let payload : TaskData :=
      { id := some newId, title := some title, description := description,
        completed := some completed, updated_at := some now }
    let entry : QueueRow :=
      { id := queueId, task_id := newId, operation := "create",
        data := payload, created_at := now, retry_count := 0,
        error_message := none }
    .ok ({ tasks := st.tasks ++ [task],
           sync_queue := st.sync_queue ++ [entry] }, task)

/-- `TaskService.updateTask`: returns `none` when the id is absent, throws on
an empty resulting title, otherwise updates title/description/completed,
sets `updated_at` to `now` and `sync_status` to `'pending'`, and enqueues one
`update` entry snapshotting the new values.  The final arm mirrors the
re-SELECT of the updated row (unreachable `none`: the row was just updated in
place). -/
def updateTask (now : Nat) (queueId : String) (st : ClientState) (id : String)
    (updates : UpdateInput) : Except String (Option (ClientState × TaskRow)) :=
  match st.tasks.find? (fun t => t.id == id) with
  | none => .ok none
  | some existing =>
    let newTitle :=
      match updates.title with
      | some s => jsTrim s
      | none => existing.title
    if newTitle = "" then .error "Title cannot be empty"
    else
      let newDescription :=
        match updates.description with
        | some d => d
        | none => existing.description
      let newCompleted := updates.completed.getD existing.completed
      let updatedAt := now
      let tasks1 := st.tasks.map (fun t =>
        if t.id = id then
          { t with title := newTitle, description := newDescription,
                   completed := newCompleted, updated_at := updatedAt,
                   sync_status := "pending" }
        else t)
      let payload : TaskData :=
        { id := some id, title := some newTitle,
          description := newDescription, completed := some newCompleted,
          updated_at := some updatedAt }
      let entry : QueueRow :=
        { id := queueId, task_id := id, operation := "update",
          data := payload, created_at := updatedAt, retry_count := 0,
          error_message := none }
      let st1 : ClientState :=
        { tasks := tasks1, sync_queue := st.sync_queue ++ [entry] }
      match tasks1.find? (fun t => t.id == id) with
      | some row => .ok (some (st1, row))
      | none => .ok none

/-- `TaskService.deleteTask`: returns `false` (state unchanged) when the id
is absent; otherwise soft-deletes (`is_deleted = 1`), sets `updated_at` to
`now` and `sync_status` to `'pending'`, and enqueues one `delete` entry with
payload `{id, updated_at}`. -/
def deleteTask (now : Nat) (queueId : String) (st : ClientState)
    (id : String) : ClientState × Bool :=
  match st.tasks.find? (fun t => t.id == id) with
  | none => (st, false)
  | some _ =>
    let updatedAt := now
    let tasks1 := st.tasks.map (fun t =>
      if t.id = id then
        { t with is_deleted := true, updated_at := updatedAt,
                 sync_status := "pending" }
      else t)
    let payload : TaskData := { id := some id, updated_at := some updatedAt }
    let entry : QueueRow :=
      { id := queueId, task_id := id, operation := "delete", data := payload,
        created_at := updatedAt, retry_count := 0, error_message := none }
    ({ tasks := tasks1, sync_queue := st.sync_queue ++ [entry] }, true)

/-! Helper lemmas about `processItem` (the loop body of `processBatch`). -/

/-- Helper: a non-delete operation against an existing record whose stored
timestamp is strictly newer leaves the table untouched and flags the
conflict in the verdict. -/
theorem processItem_existing_older (now ctr : Nat)
    (server : List ServerTaskRow) (it : IncomingItem) (ex : ServerTaskRow)
    (hop : ¬ opOf it = "delete")
    (hex : lookupClient server (clientIdOf it) = some ex)
    (hlt : (normalizeItem now it).updated_at < ex.updated_at) :
    processItem now server ctr it =
      ({ client_id := clientIdOf it, server_id := ex.id, status := "success",
         resolved_data := resolvedOfRow ex, operation := opOf it,
         conflict := true }, server, ctr) := by
  simp only [processItem, hex, if_neg hop, if_neg (Nat.not_le.mpr hlt)]
  simp [hlt]

/-- Helper: a non-delete operation against an existing record with an
incoming timestamp greater than or equal to the stored one applies the
write and keeps the fresh-id counter. -/
theorem processItem_existing_newer (now ctr : Nat)
    (server : List ServerTaskRow) (it : IncomingItem) (ex : ServerTaskRow)
    (hop : ¬ opOf it = "delete")
    (hex : lookupClient server (clientIdOf it) = some ex)
    (hle : ex.updated_at ≤ (normalizeItem now it).updated_at) :
    (processItem now server ctr it).2.1
        = applyWrite ex.id (normalizeItem now it) server ∧
    (processItem now server ctr it).2.2 = ctr := by
  simp only [processItem, hex, if_neg hop, if_pos hle]
  exact ⟨trivial, trivial⟩

/-- Helper: `applyWrite` clears the soft-delete flag on every row it
touches. -/
theorem applyWrite_is_deleted (rid : String) (inc : Incoming)
    (server : List ServerTaskRow) :
    ∀ r ∈ applyWrite rid inc server, r.id = rid → r.is_deleted = false := by
  intro r hr hid
  simp only [applyWrite, List.mem_map] at hr
  obtain ⟨s, _, rfl⟩ := hr
  by_cases h : s.id = rid
  · simp [h]
  · simp only [if_neg h] at hid ⊢
    exact absurd hid h

/-- Helper: `find?` commutes with a map that preserves the predicate. -/
theorem find?_map_of_pred_preserved {α : Type} (f : α → α) (p : α → Bool)
    (l : List α) (hf : ∀ x, p (f x) = p x) :
    (l.map f).find? p = (l.find? p).map f := by
  induction l with
  | nil => rfl
  | cons a as ih =>
    by_cases ha : p a = true
    · rw [List.map_cons, List.find?_cons_of_pos _ ((hf a).trans ha),
          List.find?_cons_of_pos _ ha]
      rfl
    · rw [List.map_cons,
          List.find?_cons_of_neg _ (by simp [hf a, ha]),
          List.find?_cons_of_neg _ (by simp [ha]), ih]

/-- Helper: appending a row whose `client_id` is `some c` to a table with no
row for `c` makes the lookup find exactly that row. -/
theorem lookupClient_append_last (server : List ServerTaskRow)
    (row : ServerTaskRow) (c : String)
    (hnone : lookupClient server (some c) = none)
    (hcid : row.client_id = some c) :
    lookupClient (server ++ [row]) (some c) = some row := by
  simp only [lookupClient] at *
  rw [List.find?_append, hnone]
  simp [List.find?, hcid]

/-- Helper: full description of `processItem` on a delete whose client id is
unknown to the server: a tombstone is inserted and reported back, with no
conflict. -/
theorem processItem_delete_missing (now ctr : Nat)
    (server : List ServerTaskRow) (it : IncomingItem) (c : String)
    (hop : opOf it = "delete")
    (hcid : clientIdOf it = some c)
    (hex : lookupClient server (some c) = none) :
    processItem now server ctr it =
      ({ client_id := some c,
         server_id := genServerId ctr,
         status := "success",
         resolved_data := resolvedOfRow
           (tombstoneRow (genServerId ctr) (some c) (normalizeItem now it)),
         operation := "delete",
         conflict := false },
       server ++ [tombstoneRow (genServerId ctr) (some c) (normalizeItem now it)],
       ctr + 1) := by
  have hlook : lookupClient
      (server ++ [tombstoneRow (genServerId ctr) (some c) (normalizeItem now it)])
      (some c)
      = some (tombstoneRow (genServerId ctr) (some c) (normalizeItem now it)) :=
    lookupClient_append_last server _ c hex rfl
  simp only [processItem, hcid, hex, if_pos hop, hlook]
  simp [tombstoneRow, resolvedOfRow, hop]

/-- C1: for a batch item with operation `create` or `update` whose client id
matches an existing server record, `processItem` (the per-item body of
`processBatch`) applies the incoming write exactly when the incoming
`updated_at` is greater than or equal to the existing record's `updated_at`
(ties favor the incoming write); when the incoming timestamp is strictly
older, the table is left unchanged and the verdict carries
`conflict = true`. -/
theorem lww_incoming_write (now ctr : Nat) (server : List ServerTaskRow)
    (it : IncomingItem) (ex : ServerTaskRow)
    (hop : opOf it = "create" ∨ opOf it = "update")
    (hex : lookupClient server (clientIdOf it) = some ex) :
    (ex.updated_at ≤ (normalizeItem now it).updated_at →
       (processItem now server ctr it).2.1
         = applyWrite ex.id (normalizeItem now it) server) ∧
    ((normalizeItem now it).updated_at < ex.updated_at →
       (processItem now server ctr it).2.1 = server ∧
       (processItem now server ctr it).1.conflict = true) := by
  have hnd : ¬ opOf it = "delete" := by
    rcases hop with h | h <;> simp [h]
  refine ⟨fun hle => (processItem_existing_newer now ctr server it ex hnd hex hle).1,
          fun hlt => ?_⟩
  rw [processItem_existing_older now ctr server it ex hnd hex hlt]
  exact ⟨rfl, rfl⟩

/-- Concrete data for witnesses: a live server record last written at
time 10. -/
def exServerRow : ServerTaskRow :=
  { id := "srv_9", client_id := some "c1", title := "old", description := none,
    completed := false, is_deleted := false, created_at := 1, updated_at := 10 }

/-- Concrete data for witnesses: an update for client `c1` carrying the
stale timestamp 5. -/
def exStaleUpdate : IncomingItem :=
  { task_id := some "c1", operation := some "update",
    data := some { title := some "new", updated_at := some 5 } }

/-- Witness for C1 at a concrete stale update against `exServerRow`: the
incoming timestamp 5 is strictly older than the stored 10, so the table is
untouched and the verdict is a conflict. -/
theorem lww_incoming_write_witness :
    (opOf exStaleUpdate = "create" ∨ opOf exStaleUpdate = "update") ∧
    lookupClient [exServerRow] (clientIdOf exStaleUpdate) = some exServerRow ∧
    (normalizeItem 100 exStaleUpdate).updated_at < exServerRow.updated_at ∧
    (processItem 100 [exServerRow] 0 exStaleUpdate).2.1 = [exServerRow] ∧
    (processItem 100 [exServerRow] 0 exStaleUpdate).1.conflict = true :=
  ⟨Or.inr rfl, by decide, by decide,
   ((lww_incoming_write 100 0 [exServerRow] exStaleUpdate exServerRow
       (Or.inr rfl) (by decide)).2 (by decide)).1,
   ((lww_incoming_write 100 0 [exServerRow] exStaleUpdate exServerRow
       (Or.inr rfl) (by decide)).2 (by decide)).2⟩

/-- C9: a `create` or `update` against an existing tombstone resurrects it
whenever the incoming timestamp is greater than or equal to the tombstone's:
the applied write sets `is_deleted` back to 0; the tombstone only survives
writes whose timestamp is strictly older, which leave the table untouched. -/
theorem tombstone_resurrected_by_lww (now ctr : Nat)
    (server : List ServerTaskRow) (it : IncomingItem) (ex : ServerTaskRow)
    (hop : opOf it = "create" ∨ opOf it = "update")
    (hex : lookupClient server (clientIdOf it) = some ex)
    (_htomb : ex.is_deleted = true) :
    (ex.updated_at ≤ (normalizeItem now it).updated_at →
       (processItem now server ctr it).2.1
           = applyWrite ex.id (normalizeItem now it) server ∧
       (lookupClient (processItem now server ctr it).2.1
           (clientIdOf it)).map (fun r => r.is_deleted) = some false) ∧
    ((normalizeItem now it).updated_at < ex.updated_at →
       (processItem now server ctr it).2.1 = server) := by
  have hnd : ¬ opOf it = "delete" := by
    rcases hop with h | h <;> simp [h]
  constructor
  · intro hle
    have htab := (processItem_existing_newer now ctr server it ex hnd hex hle).1
    refine ⟨htab, ?_⟩
    rw [htab]
    obtain ⟨c, hcid⟩ : ∃ c, clientIdOf it = some c := by
      cases hcid : clientIdOf it with
      | none => rw [hcid] at hex; simp [lookupClient] at hex
      | some c => exact ⟨c, rfl⟩
    rw [hcid]
    rw [hcid] at hex
    simp only [lookupClient] at hex
    have hpres : ∀ x : ServerTaskRow,
        ((fun r => r.client_id == some c)
          (if x.id = ex.id then
            { x with title := (normalizeItem now it).title,
                     description := (normalizeItem now it).description,
                     completed := (normalizeItem now it).completed,
                     is_deleted := false,
                     updated_at := (normalizeItem now it).updated_at }
           else x))
        = (fun r => r.client_id == some c) x := by
      intro x
      by_cases hx : x.id = ex.id <;> simp [hx]
    simp only [lookupClient, applyWrite]
    rw [find?_map_of_pred_preserved _ _ _ hpres, hex]
    simp
  · intro hlt
    rw [processItem_existing_older now ctr server it ex hnd hex hlt]

/-- Concrete data for witnesses: a server tombstone last written at
time 10. -/
def exTombRow : ServerTaskRow :=
  { id := "srv_7", client_id := some "c2", title := "gone", description := none,
    completed := false, is_deleted := true, created_at := 1, updated_at := 10 }

/-- Concrete data for witnesses: an update for client `c2` carrying the
fresher timestamp 12. -/
def exFreshUpdate : IncomingItem :=
  { task_id := some "c2", operation := some "update",
    data := some { title := some "back", updated_at := some 12 } }

/-- Witness for C9 at a concrete fresh update (timestamp 12) against the
tombstone `exTombRow` (timestamp 10): the write is applied and the record
visible for the client id is live again. -/
theorem tombstone_resurrected_by_lww_witness :
    (opOf exFreshUpdate = "create" ∨ opOf exFreshUpdate = "update") ∧
    lookupClient [exTombRow] (clientIdOf exFreshUpdate) = some exTombRow ∧
    exTombRow.is_deleted = true ∧
    exTombRow.updated_at ≤ (normalizeItem 100 exFreshUpdate).updated_at ∧
    (processItem 100 [exTombRow] 0 exFreshUpdate).2.1
        = applyWrite exTombRow.id (normalizeItem 100 exFreshUpdate) [exTombRow] ∧
    (lookupClient (processItem 100 [exTombRow] 0 exFreshUpdate).2.1
        (clientIdOf exFreshUpdate)).map (fun r => r.is_deleted) = some false :=
  ⟨Or.inr rfl, by decide, rfl, by decide,
   ((tombstone_resurrected_by_lww 100 0 [exTombRow] exFreshUpdate exTombRow
       (Or.inr rfl) (by decide) rfl).1 (by decide)).1,
   ((tombstone_resurrected_by_lww 100 0 [exTombRow] exFreshUpdate exTombRow
       (Or.inr rfl) (by decide) rfl).1 (by decide)).2⟩

/-- C4: a `delete` for a client id unknown to the server inserts a tombstone
record with `is_deleted = 1`; a subsequent `create` for the same client id
whose timestamp is strictly older than the tombstone's is rejected with
`conflict = true` and the tombstone persists unchanged.  Stated on
`processBatch` over the two-item batch. -/
theorem delete_tombstone_then_stale_create (now ctr : Nat)
    (server : List ServerTaskRow) (it1 it2 : IncomingItem) (c : String)
    (h1op : opOf it1 = "delete") (h1cid : clientIdOf it1 = some c)
    (hnone : lookupClient server (some c) = none)
    (h2op : opOf it2 = "create") (h2cid : clientIdOf it2 = some c)
    (hu : (normalizeItem now it2).updated_at
            < (normalizeItem now it1).updated_at) :
    (processBatch now server ctr [it1, it2]).2.1
        = server ++ [tombstoneRow (genServerId ctr) (some c) (normalizeItem now it1)] ∧
    (tombstoneRow (genServerId ctr) (some c) (normalizeItem now it1)).is_deleted
        = true ∧
    (processBatch now server ctr [it1, it2]).1.map (fun p => p.conflict)
        = [false, true] := by
  have h1 := processItem_delete_missing now ctr server it1 c h1op h1cid hnone
  have hlook : lookupClient
      (server ++ [tombstoneRow (genServerId ctr) (some c) (normalizeItem now it1)])
      (clientIdOf it2)
      = some (tombstoneRow (genServerId ctr) (some c) (normalizeItem now it1)) := by
    rw [h2cid]
    exact lookupClient_append_last server _ c hnone rfl
  have h2 := processItem_existing_older now (ctr + 1)
      (server ++ [tombstoneRow (genServerId ctr) (some c) (normalizeItem now it1)])
      it2 (tombstoneRow (genServerId ctr) (some c) (normalizeItem now it1))
      (by simp [h2op]) hlook hu
  simp only [processBatch, h1, h2]
  simp [tombstoneRow]

/-- Concrete data for witnesses: a delete for the never-synced client `z1`
at time 20. -/
def exOrphanDelete : IncomingItem :=
  { task_id := some "z1", operation := some "delete",
    data := some { id := some "z1", updated_at := some 20 } }

/-- Concrete data for witnesses: a stray create for client `z1` carrying the
older timestamp 15. -/
def exStrayCreate : IncomingItem :=
  { task_id := some "z1", operation := some "create",
    data := some { title := some "stray", updated_at := some 15 } }

/-- Witness for C4 at the concrete orphan delete followed by the stale
create, starting from an empty server table. -/
theorem delete_tombstone_then_stale_create_witness :
    opOf exOrphanDelete = "delete" ∧
    clientIdOf exOrphanDelete = some "z1" ∧
    lookupClient [] (some "z1") = none ∧
    opOf exStrayCreate = "create" ∧
    clientIdOf exStrayCreate = some "z1" ∧
    (normalizeItem 100 exStrayCreate).updated_at
        < (normalizeItem 100 exOrphanDelete).updated_at ∧
    ((processBatch 100 [] 0 [exOrphanDelete, exStrayCreate]).2.1
        = [] ++ [tombstoneRow (genServerId 0) (some "z1")
                   (normalizeItem 100 exOrphanDelete)] ∧
     (tombstoneRow (genServerId 0) (some "z1")
        (normalizeItem 100 exOrphanDelete)).is_deleted = true ∧
     (processBatch 100 [] 0 [exOrphanDelete, exStrayCreate]).1.map
        (fun p => p.conflict) = [false, true]) :=
  ⟨rfl, rfl, rfl, rfl, rfl, by decide,
   delete_tombstone_then_stale_create 100 0 [] exOrphanDelete exStrayCreate "z1"
     rfl rfl rfl rfl rfl (by decide)⟩

/-- C10: `getStatus` always reports `is_online = true`: the field is the
literal `true` in the source, and the function's only input is the database
state — neither `checkConnectivity` nor the health endpoint can influence
it. -/
theorem getStatus_always_online (st : ClientState) :
    (getStatus st).is_online = true := rfl

/-- C5: with an empty sync queue, `sync` returns exactly
`{success := true, synced_items := 0, failed_items := 0, errors := []}`,
leaves the client state unchanged, and never contacts the batch endpoint
(`request = none`). -/
theorem sync_empty_queue_noop (now batchSize maxRetries : Nat)
    (tasks : List TaskRow) (resp : NetResponse) :
    sync now batchSize maxRetries { tasks := tasks, sync_queue := [] } resp =
      { result := { success := true, synced_items := 0, failed_items := 0,
                    errors := [] },
        state := { tasks := tasks, sync_queue := [] },
        request := none } := by
  simp [sync, fetchBatch, sortByCreated]

/-! C8: strict growth of `updated_at` under `updateTask`. -/

/-- Concrete data: a task whose `updated_at` is 5. -/
def taskAtFive : TaskRow :=
  { id := "t1", title := "a", description := none, completed := false,
    created_at := 1, updated_at := 5, is_deleted := false,
    sync_status := "synced", server_id := none, last_synced_at := none }

/-- Concrete client state holding only `taskAtFive`. -/
def stateAtFive : ClientState := { tasks := [taskAtFive], sync_queue := [] }

/-- Task row produced by updating `taskAtFive` when the clock still reads 5
(same millisecond), if the update succeeds. -/
def sameTickUpdated : Option TaskRow :=
  match updateTask 5 "q1" stateAtFive "t1" { title := some "Renamed" } with
  | .ok (some pr) => some pr.2
  | _ => none

/-- C8 counterexample: an update executed while the clock still reads the
task's current `updated_at` (two mutations within the same ISO-timestamp
tick) succeeds but leaves `updated_at` equal to, not strictly greater than,
the previous value — the source takes `updatedAt = nowISO()` with no
monotonicity guard. -/
theorem updateTask_same_tick_counterexample :
    sameTickUpdated.map (fun t => t.updated_at) = some taskAtFive.updated_at ∧
    sameTickUpdated.map (fun t => decide (taskAtFive.updated_at < t.updated_at))
      = some false := by decide

/-- C8 amended: a successful `updateTask` sets the task's `updated_at` to
the clock time of the update; it is strictly greater than the previous
`updated_at` whenever the clock time is strictly greater (which fails only
when the clock has not advanced past the task's current timestamp). -/
theorem updateTask_sets_updated_at_to_now (now : Nat) (qid : String)
    (st st2 : ClientState) (tid : String) (upd : UpdateInput)
    (prev t : TaskRow)
    (hprev : st.tasks.find? (fun r => r.id == tid) = some prev)
    (hok : updateTask now qid st tid upd = .ok (some (st2, t))) :
    t.updated_at = now ∧
    (prev.updated_at < now → prev.updated_at < t.updated_at) := by
  have hmain : t.updated_at = now := by
    simp only [updateTask, hprev] at hok
    split at hok
    · simp at hok
    · split at hok
      case _ row heq =>
        rw [Except.ok.injEq, Option.some.injEq, Prod.mk.injEq] at hok
        obtain ⟨-, hok2⟩ := hok
        have hpred := List.find?_some heq
        have hmem := List.mem_of_find?_eq_some heq
        rw [List.mem_map] at hmem
        obtain ⟨x, -, hx⟩ := hmem
        subst hok2
        by_cases hxid : x.id = tid
        · rw [← hx]
          simp [hxid]
        · rw [← hx] at hpred
          simp [hxid] at hpred
      case _ heq => simp at hok
  exact ⟨hmain, fun h => by rw [hmain]; exact h⟩

/-- Concrete data: a task whose `updated_at` is 3. -/
def taskAtThree : TaskRow :=
  { id := "t1", title := "a", description := none, completed := false,
    created_at := 1, updated_at := 3, is_deleted := false,
    sync_status := "synced", server_id := none, last_synced_at := none }

/-- Concrete client state holding only `taskAtThree`. -/
def stateAtThree : ClientState := { tasks := [taskAtThree], sync_queue := [] }

/-- Expected task row after updating `taskAtThree` at clock time 5. -/
def taskAtThreeUpdated : TaskRow :=
  { taskAtThree with title := "x", updated_at := 5, sync_status := "pending" }

/-- Expected client state after updating `taskAtThree` at clock time 5. -/
def stateAtThreeUpdated : ClientState :=
  { tasks := [taskAtThreeUpdated],
    sync_queue := [{ id := "q1", task_id := "t1", operation := "update",
                     data := { id := some "t1", title := some "x",
                               description := none, completed := some false,
                               updated_at := some 5 },
                     created_at := 5, retry_count := 0,
                     error_message := none }] }

/-- Witness for the amended C8 at a concrete update whose clock time 5 is
past the previous `updated_at` 3. -/
theorem updateTask_sets_updated_at_to_now_witness :
    stateAtThree.tasks.find? (fun r => r.id == "t1") = some taskAtThree ∧
    updateTask 5 "q1" stateAtThree "t1" { title := some "x" }
      = .ok (some (stateAtThreeUpdated, taskAtThreeUpdated)) ∧
    (taskAtThreeUpdated.updated_at = 5 ∧
     taskAtThree.updated_at < taskAtThreeUpdated.updated_at) :=
  ⟨by decide, rfl,
   (updateTask_sets_updated_at_to_now 5 "q1" stateAtThree stateAtThreeUpdated
      "t1" { title := some "x" } taskAtThree taskAtThreeUpdated
      (by decide) rfl).1,
   (updateTask_sets_updated_at_to_now 5 "q1" stateAtThree stateAtThreeUpdated
      "t1" { title := some "x" } taskAtThree taskAtThreeUpdated
      (by decide) rfl).2 (by decide)⟩

/-! C6: every successful Task Store mutation refreshes `updated_at`, marks
the task `pending`, and appends exactly one snapshotting queue entry. -/

/-- C6: a successful `createTask`, `updateTask` or `deleteTask` sets the
affected task's `updated_at` to the mutation's clock time, sets its
`sync_status` to `'pending'`, and appends exactly one sync-queue entry for
that task's id whose `data` payload snapshots the task's stored fields at
enqueue time (`{id, title, description, completed, updated_at}` for
create/update, `{id, updated_at}` for delete). -/
theorem mutation_bumps_and_enqueues
    (now1 : Nat) (nid qid1 : String) (st1 st1b : ClientState)
    (inp : CreateInput) (t1 : TaskRow)
    (hc : createTask now1 nid qid1 st1 inp = .ok (st1b, t1))
    (now2 : Nat) (qid2 : String) (st2 st2b : ClientState) (tid2 : String)
    (upd : UpdateInput) (t2 : TaskRow)
    (hu : updateTask now2 qid2 st2 tid2 upd = .ok (some (st2b, t2)))
    (now3 : Nat) (qid3 : String) (st3 : ClientState) (tid3 : String)
    (hd : (deleteTask now3 qid3 st3 tid3).2 = true) :
    (t1.updated_at = now1 ∧ t1.sync_status = "pending" ∧
     st1b.sync_queue = st1.sync_queue ++
       [{ id := qid1, task_id := t1.id, operation := "create",
          data := { id := some t1.id, title := some t1.title,
                    description := t1.description,
                    completed := some t1.completed,
                    updated_at := some t1.updated_at },
          created_at := now1, retry_count := 0, error_message := none }]) ∧
    (t2.updated_at = now2 ∧ t2.sync_status = "pending" ∧
     st2b.sync_queue = st2.sync_queue ++
       [{ id := qid2, task_id := tid2, operation := "update",
          data := { id := some tid2, title := some t2.title,
                    description := t2.description,
                    completed := some t2.completed,
                    updated_at := some t2.updated_at },
          created_at := now2, retry_count := 0, error_message := none }]) ∧
    ((deleteTask now3 qid3 st3 tid3).1.sync_queue = st3.sync_queue ++
       [{ id := qid3, task_id := tid3, operation := "delete",
          data := { id := some tid3, updated_at := some now3 },
          created_at := now3, retry_count := 0, error_message := none }] ∧
     (deleteTask now3 qid3 st3 tid3).1.tasks = st3.tasks.map (fun t =>
       if t.id = tid3 then
         { t with is_deleted := true, updated_at := now3,
                  sync_status := "pending" }
       else t)) := by
  refine ⟨?_, ?_, ?_⟩
  · simp only [createTask] at hc
    split at hc
    · simp at hc
    · rw [Except.ok.injEq, Prod.mk.injEq] at hc
      obtain ⟨hst, ht⟩ := hc
      subst hst
      subst ht
      exact ⟨rfl, rfl, rfl⟩
  · simp only [updateTask] at hu
    split at hu
    · simp at hu
    case _ prev hprev =>
      split at hu
      · simp at hu
      · split at hu
        case _ row heq =>
          rw [Except.ok.injEq, Option.some.injEq, Prod.mk.injEq] at hu
          obtain ⟨hst, ht⟩ := hu
          subst hst
          have hpred := List.find?_some heq
          obtain ⟨x, -, hx⟩ := List.mem_map.mp (List.mem_of_find?_eq_some heq)
          by_cases hxid : x.id = tid2
          · rw [← hx] at ht
            simp only [if_pos hxid] at ht
            subst ht
            exact ⟨rfl, rfl, rfl⟩
          · rw [← hx] at hpred
            simp only [if_neg hxid] at hpred
            simp [hxid] at hpred
        case _ heq => simp at hu
  · rcases hfind : st3.tasks.find? (fun t => t.id == tid3) with - | x
    · simp only [deleteTask, hfind] at hd
      cases hd
    · simp only [deleteTask, hfind]
      exact ⟨trivial, trivial⟩

/-- Concrete data: the task produced by creating `Buy milk` at time 7. -/
def taskCreated : TaskRow :=
  { id := "n1", title := "Buy milk", description := none, completed := false,
    created_at := 7, updated_at := 7, is_deleted := false,
    sync_status := "pending", server_id := none, last_synced_at := none }

/-- Concrete data: the client state after creating `Buy milk` at time 7 in
an empty store. -/
def stateCreated : ClientState :=
  { tasks := [taskCreated],
    sync_queue := [{ id := "qa", task_id := "n1", operation := "create",
                     data := { id := some "n1", title := some "Buy milk",
                               description := none, completed := some false,
                               updated_at := some 7 },
                     created_at := 7, retry_count := 0,
                     error_message := none }] }

/-- Concrete data: a one-task store to delete from. -/
def stateForDelete : ClientState := { tasks := [taskCreated], sync_queue := [] }

/-- Witness for C6 at a concrete create (time 7), update (time 5 on
`stateAtThree`) and delete (time 9 on `stateForDelete`). -/
theorem mutation_bumps_and_enqueues_witness :
    createTask 7 "n1" "qa" { tasks := [], sync_queue := [] }
        { title := some "Buy milk" } = .ok (stateCreated, taskCreated) ∧
    updateTask 5 "q1" stateAtThree "t1" { title := some "x" }
        = .ok (some (stateAtThreeUpdated, taskAtThreeUpdated)) ∧
    (deleteTask 9 "qd" stateForDelete "n1").2 = true ∧
    ((taskCreated.updated_at = 7 ∧ taskCreated.sync_status = "pending" ∧
      stateCreated.sync_queue = [] ++
        [{ id := "qa", task_id := taskCreated.id, operation := "create",
           data := { id := some taskCreated.id, title := some taskCreated.title,
                     description := taskCreated.description,
                     completed := some taskCreated.completed,
                     updated_at := some taskCreated.updated_at },
           created_at := 7, retry_count := 0, error_message := none }]) ∧
     (taskAtThreeUpdated.updated_at = 5 ∧
      taskAtThreeUpdated.sync_status = "pending" ∧
      stateAtThreeUpdated.sync_queue = stateAtThree.sync_queue ++
        [{ id := "q1", task_id := "t1", operation := "update",
           data := { id := some "t1", title := some taskAtThreeUpdated.title,
                     description := taskAtThreeUpdated.description,
                     completed := some taskAtThreeUpdated.completed,
                     updated_at := some taskAtThreeUpdated.updated_at },
           created_at := 5, retry_count := 0, error_message := none }]) ∧
     ((deleteTask 9 "qd" stateForDelete "n1").1.sync_queue = [] ++
        [{ id := "qd", task_id := "n1", operation := "delete",
           data := { id := some "n1", updated_at := some 9 },
           created_at := 9, retry_count := 0, error_message := none }] ∧
      (deleteTask 9 "qd" stateForDelete "n1").1.tasks
        = stateForDelete.tasks.map (fun t =>
            if t.id = "n1" then
              { t with is_deleted := true, updated_at := 9,
                       sync_status := "pending" }
            else t))) :=
  ⟨rfl, rfl, rfl,
   mutation_bumps_and_enqueues 7 "n1" "qa" { tasks := [], sync_queue := [] }
     stateCreated { title := some "Buy milk" } taskCreated rfl
     5 "q1" stateAtThree stateAtThreeUpdated "t1" { title := some "x" }
     taskAtThreeUpdated rfl
     9 "qd" stateForDelete "n1" rfl⟩

/-! C2: effect of a success verdict on the client state. -/

/-- Concrete data: a pending task `t1`. -/
def pendingTask : TaskRow :=
  { id := "t1", title := "a", description := none, completed := false,
    created_at := 1, updated_at := 2, is_deleted := false,
    sync_status := "pending", server_id := none, last_synced_at := none }

/-- Concrete data: a first queue entry targeting task `t1`. -/
def entryQ1 : QueueRow :=
  { id := "q1", task_id := "t1", operation := "create",
    data := { id := some "t1", updated_at := some 2 }, created_at := 1,
    retry_count := 0, error_message := none }

/-- Concrete data: a second, later queue entry also targeting task `t1`. -/
def entryQ2 : QueueRow :=
  { id := "q2", task_id := "t1", operation := "update",
    data := { id := some "t1", updated_at := some 3 }, created_at := 2,
    retry_count := 0, error_message := none }

/-- Concrete data: client state with two queue entries for the same task. -/
def twoEntryState : ClientState :=
  { tasks := [pendingTask], sync_queue := [entryQ1, entryQ2] }

/-- Concrete data: a single success verdict for client id `t1`, originating
from entry `q1`. -/
def successVerdict : VerdictItem :=
  { client_id := some "t1", server_id := some "s1", status := "success",
    resolved_data := some { updated_at := some 10 },
    operation := some "create" }

/-- C2 counterexample: one success verdict for task `t1` deletes BOTH queue
entries whose `task_id` is `t1` (the source runs
`DELETE FROM sync_queue WHERE task_id = ?`), not only the originating entry
`q1`: the claim predicts `q2` survives that verdict, but the queue ends
empty. -/
theorem sync_success_deletes_sibling_entries :
    twoEntryState.sync_queue.map (fun q => q.task_id) = ["t1", "t1"] ∧
    (sync 20 50 3 twoEntryState (.ok [successVerdict])).state.sync_queue
      = [] := by decide

/-- C2 amended: for a success verdict, the task rows whose id equals the
verdict's client id are set to `sync_status = 'synced'`, `server_id` = the
returned server id, and `last_synced_at` and `updated_at` both equal to the
resolved record's `updated_at`; and ALL queue entries whose `task_id` equals
that client id are deleted (the source deletes by `task_id`, so sibling
entries for the same task are removed along with the originating one),
entries for other tasks surviving. -/
theorem sync_success_verdict_applies (now batchSize maxRetries : Nat)
    (st : ClientState) (p : VerdictItem) (c : String)
    (hne : (fetchBatch batchSize st.sync_queue).isEmpty = false)
    (hs : p.status = "success")
    (hc : coal p.client_id p.task_id = some c) :
    (sync now batchSize maxRetries st (.ok [p])).state.tasks
      = st.tasks.map (fun t =>
          if t.id = c then
            { t with sync_status := "synced", server_id := p.server_id,
                     last_synced_at :=
                       some ((p.resolved_data.bind (fun d => d.updated_at)).getD now),
                     updated_at :=
                       (p.resolved_data.bind (fun d => d.updated_at)).getD now }
          else t) ∧
    (sync now batchSize maxRetries st (.ok [p])).state.sync_queue
      = st.sync_queue.filter (fun q => !(q.task_id == c)) := by
  have hstate : (sync now batchSize maxRetries st (.ok [p])).state
      = (applyVerdict now (st,
          { success := true, synced_items := 0, failed_items := 0,
            errors := [] }) p).1 := by
    simp only [sync, hne]
    rfl
  rw [hstate]
  simp only [applyVerdict, hs, hc, if_pos rfl]
  constructor
  · simp [Option.some.injEq]
  · rfl

/-- Witness for the amended C2 at the concrete two-entry state and the
single success verdict for `t1`. -/
theorem sync_success_verdict_applies_witness :
    (fetchBatch 50 twoEntryState.sync_queue).isEmpty = false ∧
    successVerdict.status = "success" ∧
    coal successVerdict.client_id successVerdict.task_id = some "t1" ∧
    (sync 20 50 3 twoEntryState (.ok [successVerdict])).state.tasks
      = twoEntryState.tasks.map (fun t =>
          if t.id = "t1" then
            { t with sync_status := "synced",
                     server_id := successVerdict.server_id,
                     last_synced_at :=
                       some ((successVerdict.resolved_data.bind
                                (fun d => d.updated_at)).getD 20),
                     updated_at :=
                       (successVerdict.resolved_data.bind
                          (fun d => d.updated_at)).getD 20 }
          else t) ∧
    (sync 20 50 3 twoEntryState (.ok [successVerdict])).state.sync_queue
      = twoEntryState.sync_queue.filter (fun q => !(q.task_id == "t1")) :=
  ⟨by decide, rfl, rfl,
   (sync_success_verdict_applies 20 50 3 twoEntryState successVerdict "t1"
      (by decide) rfl rfl).1,
   (sync_success_verdict_applies 20 50 3 twoEntryState successVerdict "t1"
      (by decide) rfl rfl).2⟩

/-! C7: shape of the result when the batch POST succeeds at transport
level. -/

/-- Helper: `applyVerdict` never changes the `success` flag. -/
theorem applyVerdict_success (now : Nat) (acc : ClientState × SyncResult)
    (p : VerdictItem) : (applyVerdict now acc p).2.success = acc.2.success := by
  simp only [applyVerdict]
  split
  · split <;> rfl
  · rfl

/-- Helper: the `success` flag survives the whole verdict fold. -/
theorem foldVerdicts_success (now : Nat) (ps : List VerdictItem)
    (acc : ClientState × SyncResult) :
    (ps.foldl (applyVerdict now) acc).2.success = acc.2.success := by
  induction ps generalizing acc with
  | nil => rfl
  | cons p ps ih => rw [List.foldl_cons, ih, applyVerdict_success]

/-- Helper: `applyVerdict` bumps `failed_items` exactly on non-success
verdicts. -/
theorem applyVerdict_failed (now : Nat) (acc : ClientState × SyncResult)
    (p : VerdictItem) :
    (applyVerdict now acc p).2.failed_items
      = acc.2.failed_items + (if p.status = "success" then 0 else 1) := by
  simp only [applyVerdict]
  split
  · split <;> simp [*]
  · simp [*]

/-- Helper: `failed_items` after the verdict fold counts the non-success
verdicts. -/
theorem foldVerdicts_failed (now : Nat) (ps : List VerdictItem)
    (acc : ClientState × SyncResult) :
    (ps.foldl (applyVerdict now) acc).2.failed_items
      = acc.2.failed_items + ps.countP (fun p => !(p.status == "success")) := by
  induction ps generalizing acc with
  | nil => simp
  | cons p ps ih =>
    rw [List.foldl_cons, ih, applyVerdict_failed, List.countP_cons]
    by_cases hs : p.status = "success" <;> (simp [hs]; try omega)

/-- Error entry appended by the error arm of `applyVerdict`. -/
def failedEntry (now : Nat) (p : VerdictItem) : SyncErrorEntry :=
  { task_id := coal p.client_id p.task_id, operation := "unknown",
    error := "failed", timestamp := now }

/-- Conflict note appended by the success arm of `applyVerdict` when the
verdict carries the conflict flag. -/
def conflictEntry (now : Nat) (p : VerdictItem) : SyncErrorEntry :=
  { task_id := coal p.client_id p.task_id,
    operation := strOr p.operation "update",
    error := "Conflict resolved using last-write-wins", timestamp := now }

/-- Entry contributed to the `errors` array by one verdict, if any. -/
def errorContribution (now : Nat) (p : VerdictItem) : Option SyncErrorEntry :=
  if p.status = "success" then
    (if p.conflict then some (conflictEntry now p) else none)
  else some (failedEntry now p)

/-- Helper: the `errors` array after the verdict fold is the initial one
followed by each verdict's contribution in order. -/
theorem foldVerdicts_errors (now : Nat) (ps : List VerdictItem)
    (acc : ClientState × SyncResult) :
    (ps.foldl (applyVerdict now) acc).2.errors
      = acc.2.errors ++ ps.filterMap (errorContribution now) := by
  induction ps generalizing acc with
  | nil => simp
  | cons p ps ih =>
    rw [List.foldl_cons, ih, List.filterMap_cons]
    by_cases hs : p.status = "success"
    · by_cases hcf : p.conflict = true
      · simp only [applyVerdict, if_pos hs, if_pos hcf, errorContribution,
                   conflictEntry]
        simp [hs, hcf]
      · simp only [applyVerdict, if_pos hs, if_neg hcf, errorContribution]
    · simp only [applyVerdict, if_neg hs, errorContribution, failedEntry]
      simp [hs]

/-- Concrete data: an error verdict carrying its own operation and message,
which the client discards. -/
def errorVerdict : VerdictItem :=
  { client_id := some "t1", status := "error", operation := some "create",
    error := some "boom" }

/-- Concrete data: a one-entry client state. -/
def oneEntryState : ClientState :=
  { tasks := [pendingTask], sync_queue := [entryQ1] }

/-- C7 counterexample: the error verdict carries operation `create` and
message `boom`, but the recorded error entry says operation `unknown` and
message `failed` — the source hard-codes both instead of copying the item's
operation and failure message. -/
theorem sync_error_entry_hardcoded :
    errorVerdict.operation = some "create" ∧
    errorVerdict.error = some "boom" ∧
    (sync 30 50 3 oneEntryState (.ok [errorVerdict])).result.errors
      = [{ task_id := some "t1", operation := "unknown", error := "failed",
           timestamp := 30 }] := by decide

/-- C7 amended: when the batch POST succeeds at transport level, the result
keeps `success = true` even if some verdicts are errors; `failed_items`
counts exactly the non-success verdicts; and the `errors` array records, in
order, one entry per error verdict carrying the verdict's client id, the
fixed operation label `unknown`, the fixed message `failed` (not the item's
own operation or message), and the sync timestamp — plus one conflict note
per conflicted success verdict. -/
theorem sync_ok_partial_failures (now batchSize maxRetries : Nat)
    (st : ClientState) (ps : List VerdictItem)
    (hne : (fetchBatch batchSize st.sync_queue).isEmpty = false) :
    (sync now batchSize maxRetries st (.ok ps)).result.success = true ∧
    (sync now batchSize maxRetries st (.ok ps)).result.failed_items
      = ps.countP (fun p => !(p.status == "success")) ∧
    (sync now batchSize maxRetries st (.ok ps)).result.errors
      = ps.filterMap (errorContribution now) := by
  have hres : (sync now batchSize maxRetries st (.ok ps)).result
      = (ps.foldl (applyVerdict now) (st,
          { success := true, synced_items := 0, failed_items := 0,
            errors := [] })).2 := by
    simp only [sync, hne]
    rfl
  rw [hres]
  refine ⟨foldVerdicts_success now ps _, ?_, ?_⟩
  · rw [foldVerdicts_failed]
    simp
  · rw [foldVerdicts_errors]
    rfl

/-- Witness for the amended C7 at a concrete batch answered by one error
verdict. -/
theorem sync_ok_partial_failures_witness :
    (fetchBatch 50 oneEntryState.sync_queue).isEmpty = false ∧
    (sync 30 50 3 oneEntryState (.ok [errorVerdict])).result.success = true ∧
    (sync 30 50 3 oneEntryState (.ok [errorVerdict])).result.failed_items
      = [errorVerdict].countP (fun p => !(p.status == "success")) ∧
    (sync 30 50 3 oneEntryState (.ok [errorVerdict])).result.errors
      = [errorVerdict].filterMap (errorContribution 30) :=
  ⟨by decide,
   (sync_ok_partial_failures 30 50 3 oneEntryState [errorVerdict] (by decide)).1,
   (sync_ok_partial_failures 30 50 3 oneEntryState [errorVerdict] (by decide)).2.1,
   (sync_ok_partial_failures 30 50 3 oneEntryState [errorVerdict] (by decide)).2.2⟩

/-! C3: whole-batch transport failure. -/

/-- Helper: inserting preserves the multiset of rows. -/
theorem insertByCreated_perm (q : QueueRow) (l : List QueueRow) :
    (insertByCreated q l).Perm (q :: l) := by
  induction l with
  | nil => exact List.Perm.refl _
  | cons r rs ih =>
    simp only [insertByCreated]
    split
    · exact List.Perm.refl _
    · exact (ih.cons r).trans (List.Perm.swap q r rs)

/-- Helper: sorting preserves the multiset of rows. -/
theorem sortByCreated_perm (l : List QueueRow) : (sortByCreated l).Perm l := by
  induction l with
  | nil => exact List.Perm.refl _
  | cons q qs ih =>
    exact (insertByCreated_perm q (sortByCreated qs)).trans (ih.cons q)

/-- Helper: the fetched batch is drawn from the queue. -/
theorem mem_of_mem_fetchBatch (n : Nat) (l : List QueueRow) (e : QueueRow)
    (he : e ∈ fetchBatch n l) : e ∈ l :=
  (sortByCreated_perm l).mem_iff.mp (List.take_subset _ _ he)

/-- Helper: entry ids stay distinct in the fetched batch. -/
theorem fetchBatch_ids_nodup (n : Nat) (l : List QueueRow)
    (h : (l.map (fun q => q.id)).Nodup) :
    ((fetchBatch n l).map (fun q => q.id)).Nodup := by
  have hperm : ((sortByCreated l).map (fun q => q.id)).Perm
      (l.map (fun q => q.id)) := (sortByCreated_perm l).map _
  have hs : ((sortByCreated l).map (fun q => q.id)).Nodup :=
    hperm.nodup_iff.mpr h
  simp only [fetchBatch, List.map_take]
  exact (List.take_sublist _ _).nodup hs

/-- Helper: effect of the whole retry loop on the queue: each row whose id
occurs in the batch is bumped once (the batch's entry ids being distinct). -/
theorem foldRetry_queue (m : Nat) (msg : String) (items : List QueueRow)
    (st : ClientState) (hnd : (items.map (fun q => q.id)).Nodup) :
    (items.foldl (applyRetry m msg) st).sync_queue
      = st.sync_queue.map (fun q =>
          if items.any (fun e => e.id == q.id) then
            { q with retry_count := q.retry_count + 1,
                     error_message := some msg }
          else q) := by
  induction items generalizing st with
  | nil => simp
  | cons e es ih =>
    obtain ⟨hhd, htl⟩ : (∀ x ∈ es, ¬ x.id = e.id) ∧
        (es.map (fun q => q.id)).Nodup := by simpa using hnd
    rw [List.foldl_cons, ih _ htl]
    simp only [applyRetry, bumpRetry, List.map_map]
    apply List.map_congr_left
    intro q _
    by_cases hid : q.id = e.id
    · have hes : es.any (fun x => x.id == q.id) = false := by
        rw [List.any_eq_false]
        intro x hx
        simp only [beq_iff_eq]
        intro hxq
        exact hhd x hx (hxq.trans hid)
      have hbeq : (e.id == q.id) = true := by simp [hid]
      simp [Function.comp, List.any_cons, hid, hes, hbeq]
      exact hhd
    · have hne2 : (e.id == q.id) = false := by
        simp only [beq_eq_false_iff_ne]
        exact fun h => hid h.symm
      simp [Function.comp, List.any_cons, hid, hne2]

/-- Helper: effect of the whole retry loop on the tasks: a task is marked
`error` exactly when some batch entry targets it with an exhausted retry
counter. -/
theorem foldRetry_tasks (m : Nat) (msg : String) (items : List QueueRow)
    (st : ClientState) :
    (items.foldl (applyRetry m msg) st).tasks
      = st.tasks.map (fun t =>
          if items.any (fun e =>
              (e.task_id == t.id) && decide (m ≤ e.retry_count + 1)) then
            { t with sync_status := "error" }
          else t) := by
  induction items generalizing st with
  | nil => simp
  | cons e es ih =>
    rw [List.foldl_cons, ih]
    by_cases hcond : m ≤ e.retry_count + 1
    · simp only [applyRetry, if_pos hcond, markTaskError, List.map_map]
      apply List.map_congr_left
      intro t _
      by_cases hid : t.id = e.task_id
      · have hbeq : (e.task_id == t.id) = true := by simp [hid]
        simp [Function.comp, List.any_cons, hid, hcond, hbeq, ite_self]
      · have hne2 : (e.task_id == t.id) = false := by
          simp only [beq_eq_false_iff_ne]
          exact fun h => hid h.symm
        simp [Function.comp, List.any_cons, hid, hne2]
    · simp only [applyRetry, if_neg hcond]
      apply List.map_congr_left
      intro t _
      have hdec : decide (m ≤ e.retry_count + 1) = false := by
        simp [hcond]
      simp [List.any_cons, hdec]

/-- C3: on whole-batch transport failure, `sync` reports overall failure
with exactly one aggregated error entry and `failed_items` equal to the
batch length; every queue entry of the attempted batch gets `retry_count`
incremented by one and `error_message` set to the failure reason; and every
task targeted by a batch entry whose retry counter has thereby reached the
configured maximum gets `sync_status = 'error'`. -/
theorem sync_transport_failure (now batchSize maxRetries : Nat)
    (st : ClientState) (msg : String)
    (hwf : (st.sync_queue.map (fun q => q.id)).Nodup)
    (hne : (fetchBatch batchSize st.sync_queue).isEmpty = false) :
    (sync now batchSize maxRetries st (.fail msg)).result
      = { success := false, synced_items := 0,
          failed_items := (fetchBatch batchSize st.sync_queue).length,
          errors := [{ task_id := none, operation := "batch", error := msg,
                       timestamp := now }] } ∧
    (sync now batchSize maxRetries st (.fail msg)).state.sync_queue
      = st.sync_queue.map (fun q =>
          if (fetchBatch batchSize st.sync_queue).any
              (fun e => e.id == q.id) then
            { q with retry_count := q.retry_count + 1,
                     error_message := some msg }
          else q) ∧
    (sync now batchSize maxRetries st (.fail msg)).state.tasks
      = st.tasks.map (fun t =>
          if (fetchBatch batchSize st.sync_queue).any (fun e =>
              (e.task_id == t.id)
                && decide (maxRetries ≤ e.retry_count + 1)) then
            { t with sync_status := "error" }
          else t) := by
  have hstate : (sync now batchSize maxRetries st (.fail msg)).state
      = (fetchBatch batchSize st.sync_queue).foldl
          (applyRetry maxRetries msg) st := by
    simp only [sync, hne]
    rfl
  have hresult : (sync now batchSize maxRetries st (.fail msg)).result
      = { success := false, synced_items := 0,
          failed_items := (fetchBatch batchSize st.sync_queue).length,
          errors := [{ task_id := none, operation := "batch", error := msg,
                       timestamp := now }] } := by
    simp only [sync, hne]
    rfl
  refine ⟨hresult, ?_, ?_⟩
  · rw [hstate, foldRetry_queue _ _ _ _ (fetchBatch_ids_nodup _ _ hwf)]
  · rw [hstate, foldRetry_tasks]

/-- Concrete data: a queue entry for `t1` that already failed twice. -/
def entryNearMax : QueueRow :=
  { id := "q3", task_id := "t1", operation := "update",
    data := { id := some "t1", updated_at := some 3 }, created_at := 3,
    retry_count := 2, error_message := none }

/-- Concrete data: client state whose only queue entry is one transport
failure away from retry exhaustion. -/
def nearMaxState : ClientState :=
  { tasks := [pendingTask], sync_queue := [entryNearMax] }

/-- Witness for C3 at the concrete one-entry batch failing transport with
message `timeout` under the default maximum of 3 retries. -/
theorem sync_transport_failure_witness :
    (nearMaxState.sync_queue.map (fun q => q.id)).Nodup ∧
    (fetchBatch 50 nearMaxState.sync_queue).isEmpty = false ∧
    (sync 40 50 3 nearMaxState (.fail "timeout")).result
      = { success := false, synced_items := 0,
          failed_items := (fetchBatch 50 nearMaxState.sync_queue).length,
          errors := [{ task_id := none, operation := "batch",
                       error := "timeout", timestamp := 40 }] } ∧
    (sync 40 50 3 nearMaxState (.fail "timeout")).state.sync_queue
      = nearMaxState.sync_queue.map (fun q =>
          if (fetchBatch 50 nearMaxState.sync_queue).any
              (fun e => e.id == q.id) then
            { q with retry_count := q.retry_count + 1,
                     error_message := some "timeout" }
          else q) ∧
    (sync 40 50 3 nearMaxState (.fail "timeout")).state.tasks
      = nearMaxState.tasks.map (fun t =>
          if (fetchBatch 50 nearMaxState.sync_queue).any (fun e =>
              (e.task_id == t.id) && decide (3 ≤ e.retry_count + 1)) then
            { t with sync_status := "error" }
          else t) :=
  ⟨by decide, by decide,
   (sync_transport_failure 40 50 3 nearMaxState "timeout"
      (by decide) (by decide)).1,
   (sync_transport_failure 40 50 3 nearMaxState "timeout"
      (by decide) (by decide)).2.1,
   (sync_transport_failure 40 50 3 nearMaxState "timeout"
      (by decide) (by decide)).2.2⟩

end TaskSync
